import Mathlib

/-!
Verification of the match-data reconciliation pipeline (pull_matches.py).

The embedding models the program's data as follows: dataframes become lists
of typed rows; a pandas row with possibly-absent columns becomes a structure
of Option fields, with row.get(key, d) embedded as Option.getD; strings are
Lean strings (Python's str.isalnum is modelled on the ASCII range by
Char.isAlphanum, and the default whitespace set of str.rstrip by
Char.isWhitespace); provider calls and filesystem effects are made explicit
by returning, next to the Except result, the ordered trace of actions the
run performs.
-/

/-- Model of Python's str.isalnum test on a single character (ASCII range). -/
def pyIsAlnum (c : Char) : Bool := c.isAlphanum

/-- Model of Python's str.rstrip() on the character list of a string:
drop trailing whitespace characters. -/
def pyRstrip (l : List Char) : List Char :=
  (l.reverse.dropWhile Char.isWhitespace).reverse

/-- The character filter of sanitize_filename: keep a character when
it satisfies c.isalnum() or it is one of space, underscore, hyphen. -/
def keepFilenameChar (c : Char) : Bool :=
  pyIsAlnum c || c == ' ' || c == '_' || c == '-'

/-- Embedding of sanitize_filename (pull_matches.py, lines 20-30):
join of the characters passing keepFilenameChar, then rstrip. -/
def sanitize_filename (filename : String) : String :=
  ⟨pyRstrip (filename.data.filter keepFilenameChar)⟩

/-- Embedding of sanitize_team_name (pull_matches.py, lines 32-42):
join of the characters passing c.isalnum(). -/
def sanitize_team_name (team_name : String) : String :=
  ⟨team_name.data.filter pyIsAlnum⟩

/-- Embedding of the match directory name computed at pull_matches.py
lines 66-72: the f-string GW{week}_{home}_{hs}-{as}_{away} where both team
names have been passed through sanitize_team_name and week and scores are
interpolated raw. -/
def matchDirName (matchWeek : Int) (homeTeam : String) (homeScore awayScore : Int)
    (awayTeam : String) : String :=
  "GW" ++ toString matchWeek ++ "_" ++ sanitize_team_name homeTeam ++ "_"
    ++ toString homeScore ++ "-" ++ toString awayScore ++ "_" ++ sanitize_team_name awayTeam

-- Helper lemmas about pyRstrip.

theorem pyRstrip_sublist (l : List Char) : List.Sublist (pyRstrip l) l := by
  have h1 : List.Sublist (l.reverse.dropWhile Char.isWhitespace) l.reverse :=
    (List.dropWhile_suffix _).sublist
  have h2 := h1.reverse
  rwa [l.reverse_reverse] at h2

theorem pyRstrip_subset (l : List Char) : ∀ c ∈ pyRstrip l, c ∈ l :=
  fun _ hc => (pyRstrip_sublist l).subset hc

theorem head?_dropWhile_not {l : List Char} {p : Char → Bool} {a : Char}
    (h : (l.dropWhile p).head? = some a) : p a = false := by
  induction l with
  | nil => simp at h
  | cons x xs ih =>
    by_cases hx : p x
    · rw [List.dropWhile_cons_of_pos hx] at h; exact ih h
    · rw [List.dropWhile_cons_of_neg hx] at h
      simp at h
      subst h
      simpa using hx

theorem pyRstrip_getLast?_not_whitespace {l : List Char} {c : Char}
    (h : (pyRstrip l).getLast? = some c) : c.isWhitespace = false := by
  unfold pyRstrip at h
  rw [List.getLast?_reverse] at h
  exact head?_dropWhile_not h

theorem pyRstrip_idem (l : List Char) : pyRstrip (pyRstrip l) = pyRstrip l := by
  unfold pyRstrip
  rw [List.reverse_reverse, List.dropWhile_idempotent]

/-- Claim C5: for every input string, sanitize_filename returns only characters
from the set of alphanumerics, space, underscore and hyphen, with no trailing
whitespace, and sanitize_team_name returns only alphanumeric characters;
both are total functions into strings (the empty string when nothing
survives, never an error). -/
theorem sanitizers_char_sets (s : String) :
    (∀ c ∈ (sanitize_filename s).data,
        pyIsAlnum c = true ∨ c = ' ' ∨ c = '_' ∨ c = '-') ∧
    (∀ c, (sanitize_filename s).data.getLast? = some c → c.isWhitespace = false) ∧
    (∀ c ∈ (sanitize_team_name s).data, pyIsAlnum c = true) := by
  refine ⟨?_, ?_, ?_⟩
  · intro c hc
    have hmem : c ∈ s.data.filter keepFilenameChar := pyRstrip_subset _ c hc
    have hp : keepFilenameChar c = true := List.of_mem_filter hmem
    unfold keepFilenameChar at hp
    simp only [Bool.or_eq_true, beq_iff_eq] at hp
    tauto
  · intro c hc
    exact pyRstrip_getLast?_not_whitespace hc
  · intro c hc
    exact List.of_mem_filter hc

/-- Closed witness for sanitizers_char_sets at a concrete input. -/
theorem sanitizers_char_sets_witness :
    ('a' ∈ (sanitize_filename "a! b ").data ∧
      (pyIsAlnum 'a' = true ∨ 'a' = ' ' ∨ 'a' = '_' ∨ 'a' = '-')) ∧
    ((sanitize_filename "a! b ").data.getLast? = some 'b' ∧ 'b'.isWhitespace = false) ∧
    ('B' ∈ (sanitize_team_name "B. ").data ∧ pyIsAlnum 'B' = true) :=
  ⟨⟨by decide, (sanitizers_char_sets "a! b ").1 'a' (by decide)⟩,
   ⟨by decide, (sanitizers_char_sets "a! b ").2.1 'b' (by decide)⟩,
   ⟨by decide, (sanitizers_char_sets "B. ").2.2 'B' (by decide)⟩⟩

/-- Claim C7: both sanitizers are idempotent: applying sanitize_filename twice
yields the same string as applying it once, and likewise for
sanitize_team_name. -/
theorem sanitizers_idempotent (s : String) :
    sanitize_filename (sanitize_filename s) = sanitize_filename s ∧
    sanitize_team_name (sanitize_team_name s) = sanitize_team_name s := by
  constructor
  · unfold sanitize_filename
    have hall : ∀ c ∈ pyRstrip (s.data.filter keepFilenameChar), keepFilenameChar c = true := by
      intro c hc
      exact List.of_mem_filter (pyRstrip_subset _ c hc)
    have hfilter : (pyRstrip (s.data.filter keepFilenameChar)).filter keepFilenameChar
        = pyRstrip (s.data.filter keepFilenameChar) := List.filter_eq_self.mpr hall
    simp only [hfilter, pyRstrip_idem]
  · unfold sanitize_team_name
    have hall : ∀ c ∈ s.data.filter pyIsAlnum, pyIsAlnum c = true := by
      intro c hc
      exact List.of_mem_filter hc
    simp only [List.filter_eq_self.mpr hall]

/-- Claim C9: each sanitizer only deletes characters: for every input string the
output's character list is a sublist (order-preserving subsequence) of the
input's character list, for both sanitize_filename and sanitize_team_name. -/
theorem sanitizers_subsequence (s : String) :
    List.Sublist (sanitize_filename s).data s.data ∧
    List.Sublist (sanitize_team_name s).data s.data := by
  constructor
  · exact (pyRstrip_sublist _).trans (List.filter_sublist s.data)
  · exact List.filter_sublist s.data

/-- Claim C6: the computed match directory name has the documented shape, with
team names sanitized and week and scores raw: at week=5, home team
Bayer Leverkusen, score 3-0, away team Bayern Munich, the name is
GW5_BayerLeverkusen_3-0_BayernMunich. -/
theorem match_dir_name_example :
    (∀ (w x y : Int) (h a : String),
      matchDirName w h x y a
        = "GW" ++ toString w ++ "_" ++ sanitize_team_name h ++ "_" ++ toString x ++ "-"
          ++ toString y ++ "_" ++ sanitize_team_name a) ∧
    matchDirName 5 "Bayer Leverkusen" 3 0 "Bayern Munich"
      = "GW5_BayerLeverkusen_3-0_BayernMunich" :=
  ⟨fun _ _ _ _ _ => rfl, by decide⟩

/-!
Frame-event merge (pull_matches.py, lines 93-97).

The frames dataframe carries columns match_id and event_uuid plus its
frame-only payload; the events dataframe carries columns match_id and id
plus its event-only payload. The code first renames the frames column
event_uuid to id, then computes pd.merge(frames, events, how="left",
on=["match_id", "id"]): for each frame row in order, one output row per
event row agreeing on both keys, or a single output row with absent
event-side values when no event row matches.
-/

/-- One row of the frames dataframe: join keys match_id and event_uuid,
and the remaining frame-only columns abstracted as one payload. -/
structure FrameRow where
  match_id : Int
  event_uuid : String
  fdata : String
deriving DecidableEq, Repr

/-- One row of the frames dataframe after the rename of column event_uuid
to id performed at line 94. -/
structure RenamedFrameRow where
  match_id : Int
  id : String
  fdata : String
deriving DecidableEq, Repr

/-- One row of the events dataframe: join keys match_id and id, and the
remaining event-only columns abstracted as one payload. -/
structure EventRow where
  match_id : Int
  id : String
  edata : String
deriving DecidableEq, Repr

/-- One row of the merged output: the frame-side columns plus the
event-side payload, which is absent (none, pandas NaN) for an unmatched
frame row. -/
structure MergedRow where
  match_id : Int
  id : String
  fdata : String
  edata : Option String
deriving DecidableEq, Repr

/-- The rename of line 94: frames_df.rename(columns={'event_uuid': 'id'}). -/
def renameEventUuid (f : FrameRow) : RenamedFrameRow :=
  ⟨f.match_id, f.event_uuid, f.fdata⟩

/-- The event rows matching one (renamed) frame row on both join keys. -/
def eventMatches (f : RenamedFrameRow) (events : List EventRow) : List EventRow :=
  events.filter fun e => e.match_id == f.match_id && e.id == f.id

/-- The merged row built from a frame row and one matching event row. -/
def combineRows (f : RenamedFrameRow) (e : EventRow) : MergedRow :=
  ⟨f.match_id, f.id, f.fdata, some e.edata⟩

/-- The contribution of one frame row to the left merge: one row per
matching event row, or a single row with an absent event payload when no
event row matches. -/
def mergeOneFrame (f : RenamedFrameRow) (events : List EventRow) : List MergedRow :=
  let ms := eventMatches f events
  if ms.isEmpty then [⟨f.match_id, f.id, f.fdata, none⟩]
  else ms.map (combineRows f)

/-- Embedding of pd.merge(frames_df, events_df, how="left",
on=["match_id", "id"]) preceded by the event_uuid-to-id rename
(pull_matches.py, lines 94-95). -/
def mergeFramesEvents (frames : List FrameRow) (events : List EventRow) : List MergedRow :=
  (frames.map renameEventUuid).flatMap (fun f => mergeOneFrame f events)

theorem mergeOneFrame_unmatched (f : RenamedFrameRow) (events : List EventRow)
    (h : eventMatches f events = []) :
    mergeOneFrame f events = [⟨f.match_id, f.id, f.fdata, none⟩] := by
  unfold mergeOneFrame
  simp [h]

theorem mergeOneFrame_surviving (f : RenamedFrameRow) (events : List EventRow) :
    ∃ m ∈ mergeOneFrame f events,
      m.match_id = f.match_id ∧ m.id = f.id ∧ m.fdata = f.fdata := by
  unfold mergeOneFrame
  by_cases h : (eventMatches f events).isEmpty
  · simp [h]
  · simp only [h, if_false]
    rcases List.exists_mem_of_ne_nil _ (by simpa [List.isEmpty_iff] using h) with ⟨e, he⟩
    exact ⟨combineRows f e, List.mem_map_of_mem _ he, rfl, rfl, rfl⟩

theorem mergeOneFrame_length (f : RenamedFrameRow) (events : List EventRow) :
    (mergeOneFrame f events).length = max (eventMatches f events).length 1 := by
  unfold mergeOneFrame
  by_cases h : (eventMatches f events).isEmpty
  · simp [h, List.isEmpty_iff.mp h]
  · have hlen : 1 ≤ (eventMatches f events).length := by
      rcases List.exists_mem_of_ne_nil _ (by simpa [List.isEmpty_iff] using h) with ⟨e, he⟩
      exact List.length_pos.mpr (List.ne_nil_of_mem he)
    simp [h, Nat.max_eq_left hlen]

/-- Claim C2: the merge renames event_uuid to id and performs a frame-preserving
left join on (match_id, id): for any non-empty frame table, every frame row
appears at least once in the merged output (with its match_id, its
event_uuid now under the name id, and its frame payload), and a frame row
with no matching event row yields exactly the row whose event-side payload
is absent; no frame row is dropped. -/
theorem merge_preserves_frames (frames : List FrameRow) (events : List EventRow)
    (hne : frames ≠ []) :
    (∀ f ∈ frames, ∃ m ∈ mergeFramesEvents frames events,
        m.match_id = f.match_id ∧ m.id = f.event_uuid ∧ m.fdata = f.fdata) ∧
    (∀ f ∈ frames, eventMatches (renameEventUuid f) events = [] →
        (⟨f.match_id, f.event_uuid, f.fdata, none⟩ : MergedRow)
          ∈ mergeFramesEvents frames events) ∧
    mergeFramesEvents frames events ≠ [] := by
  refine ⟨?_, ?_, ?_⟩
  · intro f hf
    rcases mergeOneFrame_surviving (renameEventUuid f) events with ⟨m, hm, h1, h2, h3⟩
    refine ⟨m, ?_, h1, h2, h3⟩
    exact List.mem_flatMap.mpr ⟨renameEventUuid f, List.mem_map_of_mem _ hf, hm⟩
  · intro f hf hempty
    have : (⟨f.match_id, f.event_uuid, f.fdata, none⟩ : MergedRow)
        ∈ mergeOneFrame (renameEventUuid f) events := by
      rw [mergeOneFrame_unmatched _ _ hempty]
      exact List.mem_singleton.mpr rfl
    exact List.mem_flatMap.mpr ⟨renameEventUuid f, List.mem_map_of_mem _ hf, this⟩
  · rcases List.exists_mem_of_ne_nil _ hne with ⟨f, hf⟩
    rcases mergeOneFrame_surviving (renameEventUuid f) events with ⟨m, hm, -⟩
    exact List.ne_nil_of_mem
      (List.mem_flatMap.mpr ⟨renameEventUuid f, List.mem_map_of_mem _ hf, hm⟩)

/-- Closed witness for merge_preserves_frames: one frame row with no
matching event row is preserved with an absent event payload. -/
theorem merge_preserves_frames_witness :
    ((⟨7, "u1", "frame-data"⟩ : FrameRow) ∈ ([⟨7, "u1", "frame-data"⟩] : List FrameRow)) ∧
    (⟨7, "u1", "frame-data", none⟩ : MergedRow)
      ∈ mergeFramesEvents [⟨7, "u1", "frame-data"⟩] [⟨7, "u2", "pass"⟩] :=
  ⟨by decide,
    (merge_preserves_frames [⟨7, "u1", "frame-data"⟩] [⟨7, "u2", "pass"⟩]
      (by decide)).2.1 ⟨7, "u1", "frame-data"⟩ (by decide) (by decide)⟩

/-- Claim C8: duplicate (match_id, id) keys in the event table fan the join out:
the merged output has exactly one row per (frame row, matching event row)
pair (and one row for each unmatched frame row), and every such pair indeed
contributes its combined row; nothing guards against duplication. -/
theorem merge_fans_out (frames : List FrameRow) (events : List EventRow) :
    (mergeFramesEvents frames events).length
      = (frames.map (fun f =>
          max (eventMatches (renameEventUuid f) events).length 1)).sum ∧
    (∀ f ∈ frames, ∀ e ∈ eventMatches (renameEventUuid f) events,
        combineRows (renameEventUuid f) e ∈ mergeFramesEvents frames events) := by
  constructor
  · unfold mergeFramesEvents
    rw [List.length_flatMap, List.map_map]
    refine congrArg List.sum (List.map_congr_left fun f _ => ?_)
    exact mergeOneFrame_length (renameEventUuid f) events
  · intro f hf e he
    have hne : ¬ (eventMatches (renameEventUuid f) events).isEmpty := by
      simp [List.isEmpty_iff]
      exact List.ne_nil_of_mem he
    have : combineRows (renameEventUuid f) e ∈ mergeOneFrame (renameEventUuid f) events := by
      unfold mergeOneFrame
      simp only [hne, if_false]
      exact List.mem_map_of_mem _ he
    exact List.mem_flatMap.mpr ⟨renameEventUuid f, List.mem_map_of_mem _ hf, this⟩

/-- Closed witness for merge_fans_out: one frame row and an event table in
which its key appears twice produce two merged rows. -/
theorem merge_fans_out_witness :
    (mergeFramesEvents [⟨7, "u1", "f"⟩] [⟨7, "u1", "shot"⟩, ⟨7, "u1", "goal"⟩]).length
        = (([⟨7, "u1", "f"⟩] : List FrameRow).map (fun f =>
            max (eventMatches (renameEventUuid f)
              [⟨7, "u1", "shot"⟩, ⟨7, "u1", "goal"⟩]).length 1)).sum ∧
    combineRows (renameEventUuid ⟨7, "u1", "f"⟩) ⟨7, "u1", "goal"⟩
      ∈ mergeFramesEvents [⟨7, "u1", "f"⟩] [⟨7, "u1", "shot"⟩, ⟨7, "u1", "goal"⟩] :=
  ⟨(merge_fans_out [⟨7, "u1", "f"⟩] [⟨7, "u1", "shot"⟩, ⟨7, "u1", "goal"⟩]).1,
   (merge_fans_out [⟨7, "u1", "f"⟩] [⟨7, "u1", "shot"⟩, ⟨7, "u1", "goal"⟩]).2
     ⟨7, "u1", "f"⟩ (by decide) ⟨7, "u1", "goal"⟩ (by decide)⟩

/-!
Metadata builder (pull_matches.py, lines 103-146).

One row of the matches dataframe is modelled as a structure of Option
fields: a field is none exactly when the column is absent from the row, so
that match_row.get(key, default) becomes Option.getD. The dict literal
built at lines 103-143 becomes an ordered association list whose values
carry the json type produced by the coercion applied in the source
(int(...), str(...), or the untouched manager lists).
-/

/-- A json-like value as written into metadata.json: the result of int(...)
coercion, str(...) coercion, a passed-through list, or a native null (which
the builder never produces). -/
inductive JsonVal where
  | jint (n : Int)
  | jstr (s : String)
  | jlist (xs : List String)
  | jnull
deriving DecidableEq, Repr

/-- The three declared field types of the metadata table in the spec. -/
inductive JKind where
  | kInt
  | kStr
  | kList
deriving DecidableEq, Repr

/-- The json type of a value, none for a native null. -/
def jkindOf : JsonVal → Option JKind
  | .jint _ => some .kInt
  | .jstr _ => some .kStr
  | .jlist _ => some .kList
  | .jnull => none

/-- One row of the matches dataframe (a MatchRecord): every column the
script reads, each possibly absent. -/
structure MatchRecord where
  match_id : Option Int
  match_date : Option String
  kick_off : Option String
  competition : Option String
  season : Option String
  home_team : Option String
  away_team : Option String
  home_score : Option Int
  away_score : Option Int
  match_status : Option String
  match_status_360 : Option String
  last_updated : Option String
  last_updated_360 : Option String
  match_week : Option Int
  competition_stage : Option String
  stadium : Option String
  referee : Option String
  home_managers : Option (List String)
  away_managers : Option (List String)
  data_version : Option String
  shot_fidelity_version : Option String
  xy_fidelity_version : Option String
deriving DecidableEq, Repr

/-- Embedding of the match_metadata dict literal (pull_matches.py, lines
103-143), in source order: mid is the already-extracted
int(match_row['match_id']); str(row.get(k, d)) on a string column becomes
getD, str(row.get(k, None)) becomes getD "None" since str(None) is the
string None; int(row.get(k, 0)) on an int column becomes getD 0; the
manager lists are passed through with default []. -/
def match_metadata (mid : Int) (r : MatchRecord) : List (String × JsonVal) :=
  [("match_id", .jint mid),
   ("match_date", .jstr (r.match_date.getD "Unknown")),
   ("kick_off", .jstr (r.kick_off.getD "Unknown")),
   ("competition_id", .jint 9),
   ("season_id", .jint 281),
   ("competition", .jstr (r.competition.getD "1. Bundesliga")),
   ("season", .jstr (r.season.getD "2023/2024")),
   ("home_team", .jstr (r.home_team.getD "Unknown")),
   ("away_team", .jstr (r.away_team.getD "Unknown")),
   ("home_score", .jint (r.home_score.getD 0)),
   ("away_score", .jint (r.away_score.getD 0)),
   ("match_status", .jstr (r.match_status.getD "Unknown")),
   ("match_status_360", .jstr (r.match_status_360.getD "Unknown")),
   ("last_updated", .jstr (r.last_updated.getD "None")),
   ("last_updated_360", .jstr (r.last_updated_360.getD "None")),
   ("match_week", .jint (r.match_week.getD 0)),
   ("competition_stage", .jstr (r.competition_stage.getD "Unknown")),
   ("stadium", .jstr (r.stadium.getD "Unknown")),
   ("referee", .jstr (r.referee.getD "Unknown")),
   ("home_managers", .jlist (r.home_managers.getD [])),
   ("away_managers", .jlist (r.away_managers.getD [])),
   ("data_version", .jstr (r.data_version.getD "Unknown")),
   ("shot_fidelity_version", .jstr (r.shot_fidelity_version.getD "Unknown")),
   ("xy_fidelity_version", .jstr (r.xy_fidelity_version.getD "Unknown"))]

/-- The 24 fixed metadata field names of the spec's section 6 table, in
output order. -/
def metadataFieldNames : List String :=
  ["match_id", "match_date", "kick_off", "competition_id", "season_id",
   "competition", "season", "home_team", "away_team", "home_score",
   "away_score", "match_status", "match_status_360", "last_updated",
   "last_updated_360", "match_week", "competition_stage", "stadium",
   "referee", "home_managers", "away_managers", "data_version",
   "shot_fidelity_version", "xy_fidelity_version"]

/-- The declared type of each metadata field per the spec's section 6
table. -/
def declaredKind : String → Option JKind
  | "match_id" => some .kInt
  | "match_date" => some .kStr
  | "kick_off" => some .kStr
  | "competition_id" => some .kInt
  | "season_id" => some .kInt
  | "competition" => some .kStr
  | "season" => some .kStr
  | "home_team" => some .kStr
  | "away_team" => some .kStr
  | "home_score" => some .kInt
  | "away_score" => some .kInt
  | "match_status" => some .kStr
  | "match_status_360" => some .kStr
  | "last_updated" => some .kStr
  | "last_updated_360" => some .kStr
  | "match_week" => some .kInt
  | "competition_stage" => some .kStr
  | "stadium" => some .kStr
  | "referee" => some .kStr
  | "home_managers" => some .kList
  | "away_managers" => some .kList
  | "data_version" => some .kStr
  | "shot_fidelity_version" => some .kStr
  | "xy_fidelity_version" => some .kStr
  | _ => none

/-- Modelled from the spec: the section 6 defaulting table restricted to
the 21 row-sourced fields (all but match_id, competition_id, season_id,
which do not default from the row). Each entry is the source-row accessor
with its declared coercion, the field name, and the documented
default-if-absent. -/
def metadataFieldTable : List ((MatchRecord → Option JsonVal) × String × JsonVal) :=
  [(fun r => r.match_date.map .jstr, "match_date", .jstr "Unknown"),
   (fun r => r.kick_off.map .jstr, "kick_off", .jstr "Unknown"),
   (fun r => r.competition.map .jstr, "competition", .jstr "1. Bundesliga"),
   (fun r => r.season.map .jstr, "season", .jstr "2023/2024"),
   (fun r => r.home_team.map .jstr, "home_team", .jstr "Unknown"),
   (fun r => r.away_team.map .jstr, "away_team", .jstr "Unknown"),
   (fun r => r.home_score.map .jint, "home_score", .jint 0),
   (fun r => r.away_score.map .jint, "away_score", .jint 0),
   (fun r => r.match_status.map .jstr, "match_status", .jstr "Unknown"),
   (fun r => r.match_status_360.map .jstr, "match_status_360", .jstr "Unknown"),
   (fun r => r.last_updated.map .jstr, "last_updated", .jstr "None"),
   (fun r => r.last_updated_360.map .jstr, "last_updated_360", .jstr "None"),
   (fun r => r.match_week.map .jint, "match_week", .jint 0),
   (fun r => r.competition_stage.map .jstr, "competition_stage", .jstr "Unknown"),
   (fun r => r.stadium.map .jstr, "stadium", .jstr "Unknown"),
   (fun r => r.referee.map .jstr, "referee", .jstr "Unknown"),
   (fun r => r.home_managers.map .jlist, "home_managers", .jlist []),
   (fun r => r.away_managers.map .jlist, "away_managers", .jlist []),
   (fun r => r.data_version.map .jstr, "data_version", .jstr "Unknown"),
   (fun r => r.shot_fidelity_version.map .jstr, "shot_fidelity_version", .jstr "Unknown"),
   (fun r => r.xy_fidelity_version.map .jstr, "xy_fidelity_version", .jstr "Unknown")]

/-- A MatchRecord with every column absent. -/
def rowAbsent : MatchRecord :=
  ⟨none, none, none, none, none, none, none, none, none, none, none,
   none, none, none, none, none, none, none, none, none, none, none⟩

/-- A MatchRecord with every column present. -/
def rowFull : MatchRecord :=
  ⟨some 123, some "2023-08-18", some "20:30:00.000", some "1. Bundesliga",
   some "2023/2024", some "Bayer Leverkusen", some "RB Leipzig", some 3,
   some 2, some "available", some "available", some "2024-01-01",
   some "2024-01-02", some 1, some "Regular Season", some "BayArena",
   some "R. Referee", some ["X. Alonso"], some ["M. Rose"], some "1.1.0",
   some "2", some "2"⟩

/-- Claim C1: for any MatchRecord missing an arbitrary subset of its fields, the
metadata builder produces a record with exactly the 24 fixed fields of the
spec's section 6 table in order, each present with its declared json type
and never a native null; match_id carries the extracted id and
competition_id and season_id the fixed inputs 9 and 281; and for every
row-sourced field of the section 6 table, an absent source column yields
the documented default while a present one yields its coerced value. -/
theorem metadata_builder_complete (mid : Int) (r : MatchRecord) :
    ((match_metadata mid r).map Prod.fst = metadataFieldNames) ∧
    (∀ kv ∈ match_metadata mid r, jkindOf kv.2 = declaredKind kv.1 ∧ kv.2 ≠ JsonVal.jnull) ∧
    ((match_metadata mid r).lookup "match_id" = some (JsonVal.jint mid)) ∧
    ((match_metadata mid r).lookup "competition_id" = some (JsonVal.jint 9)) ∧
    ((match_metadata mid r).lookup "season_id" = some (JsonVal.jint 281)) ∧
    (metadataFieldTable.map (fun s => s.2.1)
      = ((metadataFieldNames.erase "match_id").erase "competition_id").erase "season_id") ∧
    (∀ s ∈ metadataFieldTable,
      (s.1 r = none → (match_metadata mid r).lookup s.2.1 = some s.2.2) ∧
      (∀ v, s.1 r = some v → (match_metadata mid r).lookup s.2.1 = some v)) := by
  refine ⟨rfl, ?_, rfl, rfl, rfl, rfl, ?_⟩
  · intro kv hkv
    simp only [match_metadata, List.mem_cons, List.not_mem_nil, or_false] at hkv
    rcases hkv with rfl|rfl|rfl|rfl|rfl|rfl|rfl|rfl|rfl|rfl|rfl|rfl|rfl|rfl|rfl|rfl|rfl|rfl|rfl|rfl|rfl|rfl|rfl|rfl <;>
      exact ⟨rfl, by simp⟩
  · intro s hs
    simp only [metadataFieldTable, List.mem_cons, List.not_mem_nil, or_false] at hs
    rcases hs with rfl|rfl|rfl|rfl|rfl|rfl|rfl|rfl|rfl|rfl|rfl|rfl|rfl|rfl|rfl|rfl|rfl|rfl|rfl|rfl|rfl <;>
      exact ⟨fun h => by simp only [Option.map_eq_none'] at h; simp only [match_metadata, h]; rfl,
             fun v h => by
               rcases Option.map_eq_some'.mp h with ⟨a, ha, rfl⟩
               simp only [match_metadata, ha]
               rfl⟩

/-- Closed witness for metadata_builder_complete: at mid 123, the all-absent
row yields the documented default for match_date, the all-present row
yields its own value, and the match_id entry is well-typed. -/
theorem metadata_builder_complete_witness :
    (List.lookup "match_date" (match_metadata 123 rowAbsent) = some (JsonVal.jstr "Unknown")) ∧
    (List.lookup "match_date" (match_metadata 123 rowFull) = some (JsonVal.jstr "2023-08-18")) ∧
    (jkindOf (JsonVal.jint 123) = declaredKind "match_id" ∧ JsonVal.jint 123 ≠ JsonVal.jnull) := by
  have hA := metadata_builder_complete 123 rowAbsent
  have hF := metadata_builder_complete 123 rowFull
  have hmem : ((fun (r : MatchRecord) => r.match_date.map JsonVal.jstr),
      ("match_date", JsonVal.jstr "Unknown")) ∈ metadataFieldTable :=
    List.mem_cons_self _ _
  refine ⟨?_, ?_, ?_⟩
  · exact (hA.2.2.2.2.2.2 _ hmem).1 rfl
  · exact (hF.2.2.2.2.2.2 _ hmem).2 (JsonVal.jstr "2023-08-18") rfl
  · exact hA.2.1 ("match_id", JsonVal.jint 123) (by decide)


/-!
Pipeline orchestration (pull_matches.py, lines 44-160).

The provider (statsbombpy) is a record of the four remote operations, each
returning either data or a transport failure; its fields are named after
the call sites sb.matches, sb.events, sb.frames, sb.lineups. Running the
pipeline yields an Except result together with the ordered trace of
externally visible actions: provider calls, directory creations, and file
writes. The trace mirrors the source order: list matches, pick
matches.iloc[0] (IndexError on an empty table, modelled as emptyResult),
read match_id, home_team and away_team by direct indexing (KeyError when
absent), create the match directory, fetch events, frames and lineups,
write the per-team lineup files, write 360_frames.csv only when the frame
table is non-empty, write events.csv, and write metadata.json.
-/

/-- A failure raised by the remote provider (transport, auth, malformed
response), carried as its message. -/
abbrev ProviderFailure := String

/-- The ways the run aborts: emptyResult models the IndexError raised by
matches.iloc[0] on an empty match list; keyError models a KeyError from
direct row indexing; provider wraps a provider failure. -/
inductive PullError where
  | emptyResult
  | keyError (field : String)
  | provider (msg : ProviderFailure)
deriving DecidableEq, Repr

/-- The content written to one output file. -/
inductive FileContent where
  | lineupCsv (rows : List String)
  | framesCsv (rows : List MergedRow)
  | eventsCsv (rows : List EventRow)
  | metadataJson (entries : List (String × JsonVal))
deriving DecidableEq, Repr

/-- One externally visible action of a run, in execution order. -/
inductive RunAction where
  | mkdir (path : String)
  | fetchMatches
  | fetchEvents (mid : Int)
  | fetchFrames (mid : Int)
  | fetchLineups (mid : Int)
  | writeFile (path : String) (content : FileContent)
deriving DecidableEq, Repr

/-- The remote data provider: the four statsbombpy operations used by the
script, each either returning its table or failing. -/
structure Provider where
  sb_matches : Except ProviderFailure (List MatchRecord)
  sb_events : Int → Except ProviderFailure (List EventRow)
  sb_frames : Int → Except ProviderFailure (List FrameRow)
  sb_lineups : Int → Except ProviderFailure (List (String × List String))

/-- Embedding of create_data_directory (pull_matches.py, lines 7-18):
create the base directory (idempotent) and return its path. -/
def create_data_directory (basePath : String) : String × List RunAction :=
  (basePath, [RunAction.mkdir basePath])

/-- Embedding of download_leverkusen_data (pull_matches.py, lines 44-152):
the body of the try block, returning the result and the ordered action
trace. -/
def download_leverkusen_data (p : Provider) (basePath : String) :
    Except PullError Unit × List RunAction :=
  match p.sb_matches with
  | .error e => (.error (.provider e), [.fetchMatches])
  | .ok ms =>
    match ms with
    | [] => (.error .emptyResult, [.fetchMatches])
    | mrow :: _ =>
      match mrow.match_id with
      | none => (.error (.keyError "match_id"), [.fetchMatches])
      | some mid =>
        match mrow.home_team with
        | none => (.error (.keyError "home_team"), [.fetchMatches])
        | some homeTeam =>
          match mrow.away_team with
          | none => (.error (.keyError "away_team"), [.fetchMatches])
          | some awayTeam =>
            let dirName := matchDirName (mrow.match_week.getD 0) homeTeam
              (mrow.home_score.getD 0) (mrow.away_score.getD 0) awayTeam
            let matchDir := basePath ++ "/" ++ dirName
            match p.sb_events mid with
            | .error e => (.error (.provider e), [.fetchMatches, .mkdir matchDir, .fetchEvents mid])
            | .ok evs =>
              match p.sb_frames mid with
              | .error e => (.error (.provider e),
                  [.fetchMatches, .mkdir matchDir, .fetchEvents mid, .fetchFrames mid])
              | .ok frs =>
                match p.sb_lineups mid with
                | .error e => (.error (.provider e),
                    [.fetchMatches, .mkdir matchDir, .fetchEvents mid, .fetchFrames mid,
                     .fetchLineups mid])
                | .ok lus =>
                  let lineupWrites := lus.map (fun tl =>
                    RunAction.writeFile
                      (matchDir ++ "/" ++ sanitize_team_name tl.1 ++ "_lineups.csv")
                      (.lineupCsv tl.2))
                  let mergeWrites := if frs.isEmpty then []
                    else [RunAction.writeFile (matchDir ++ "/360_frames.csv")
                      (.framesCsv (mergeFramesEvents frs evs))]
                  (.ok (),
                    [.fetchMatches, .mkdir matchDir, .fetchEvents mid, .fetchFrames mid,
                     .fetchLineups mid]
                    ++ lineupWrites ++ mergeWrites
                    ++ [RunAction.writeFile (matchDir ++ "/events.csv") (.eventsCsv evs),
                        RunAction.writeFile (matchDir ++ "/metadata.json")
                          (.metadataJson (match_metadata mid mrow))])

/-- Embedding of main (pull_matches.py, lines 154-160): create the base
directory, then run the download against it. -/
def main_pipeline (p : Provider) : Except PullError Unit × List RunAction :=
  let base := create_data_directory "matches"
  let dl := download_leverkusen_data p base.1
  (dl.1, base.2 ++ dl.2)

/-- Claim C3: given an empty match list for the competition/season pair, the run
fails with the empty-result error and the trace shows only the match-list
call: no event, frame, or lineup fetch of dependent data ever occurs. -/
theorem empty_match_list_aborts (p : Provider) (basePath : String)
    (h : p.sb_matches = .ok []) :
    download_leverkusen_data p basePath = (.error .emptyResult, [.fetchMatches]) ∧
    (∀ mid, RunAction.fetchEvents mid ∉ (download_leverkusen_data p basePath).2 ∧
            RunAction.fetchFrames mid ∉ (download_leverkusen_data p basePath).2 ∧
            RunAction.fetchLineups mid ∉ (download_leverkusen_data p basePath).2) := by
  have htr : download_leverkusen_data p basePath = (.error .emptyResult, [.fetchMatches]) := by
    unfold download_leverkusen_data
    rw [h]
  refine ⟨htr, fun mid => ?_⟩
  rw [htr]
  refine ⟨?_, ?_, ?_⟩ <;> simp

/-- A provider whose match list is empty. -/
def emptyMatchesProvider : Provider :=
  ⟨.ok [], fun _ => .ok [], fun _ => .ok [], fun _ => .ok []⟩

/-- Closed witness for empty_match_list_aborts at a concrete provider. -/
theorem empty_match_list_aborts_witness :
    download_leverkusen_data emptyMatchesProvider "matches"
        = (.error .emptyResult, [.fetchMatches]) ∧
    RunAction.fetchEvents 0 ∉ (download_leverkusen_data emptyMatchesProvider "matches").2 :=
  ⟨(empty_match_list_aborts emptyMatchesProvider "matches" rfl).1,
   ((empty_match_list_aborts emptyMatchesProvider "matches" rfl).2 0).1⟩

/-- Claim C10: the base directory is created before any provider call: the first
action of every run of main is the creation of the matches directory,
whatever the provider does; and when the match list is empty the whole
trace is exactly that creation followed by the match-list call, so no
match-specific directory or file is ever created in that case. -/
theorem base_dir_created_first (p : Provider) :
    ((main_pipeline p).2.head? = some (RunAction.mkdir "matches")) ∧
    (p.sb_matches = .ok [] →
      main_pipeline p = (.error .emptyResult, [.mkdir "matches", .fetchMatches])) := by
  constructor
  · rfl
  · intro h
    unfold main_pipeline create_data_directory download_leverkusen_data
    rw [h]
    rfl

/-- Closed witness for base_dir_created_first at a concrete provider. -/
theorem base_dir_created_first_witness :
    ((main_pipeline emptyMatchesProvider).2.head? = some (RunAction.mkdir "matches")) ∧
    main_pipeline emptyMatchesProvider
        = (.error .emptyResult, [.mkdir "matches", .fetchMatches]) :=
  ⟨(base_dir_created_first emptyMatchesProvider).1,
   (base_dir_created_first emptyMatchesProvider).2 rfl⟩

theorem download_trace_empty_frames (p : Provider) (basePath : String)
    (mrow : MatchRecord) (rest : List MatchRecord) (mid : Int)
    (homeTeam awayTeam : String) (evs : List EventRow)
    (lus : List (String × List String))
    (h1 : p.sb_matches = .ok (mrow :: rest))
    (h2 : mrow.match_id = some mid)
    (h3 : mrow.home_team = some homeTeam)
    (h4 : mrow.away_team = some awayTeam)
    (h5 : p.sb_events mid = .ok evs)
    (h6 : p.sb_frames mid = .ok [])
    (h7 : p.sb_lineups mid = .ok lus) :
    download_leverkusen_data p basePath = (.ok (),
      [.fetchMatches,
       .mkdir (basePath ++ "/" ++ matchDirName (mrow.match_week.getD 0) homeTeam
         (mrow.home_score.getD 0) (mrow.away_score.getD 0) awayTeam),
       .fetchEvents mid, .fetchFrames mid, .fetchLineups mid]
      ++ lus.map (fun tl =>
          RunAction.writeFile
            (basePath ++ "/" ++ matchDirName (mrow.match_week.getD 0) homeTeam
                (mrow.home_score.getD 0) (mrow.away_score.getD 0) awayTeam
              ++ "/" ++ sanitize_team_name tl.1 ++ "_lineups.csv")
            (.lineupCsv tl.2))
      ++ []
      ++ [RunAction.writeFile
            (basePath ++ "/" ++ matchDirName (mrow.match_week.getD 0) homeTeam
                (mrow.home_score.getD 0) (mrow.away_score.getD 0) awayTeam
              ++ "/events.csv")
            (.eventsCsv evs),
          RunAction.writeFile
            (basePath ++ "/" ++ matchDirName (mrow.match_week.getD 0) homeTeam
                (mrow.home_score.getD 0) (mrow.away_score.getD 0) awayTeam
              ++ "/metadata.json")
            (.metadataJson (match_metadata mid mrow))]) := by
  unfold download_leverkusen_data
  simp only [h1, h2, h3, h4, h5, h6, h7, List.isEmpty_nil, if_true]

/-- Claim C4: when the frame table fetched for the match is empty, the merger is
skipped entirely: the run still succeeds, no merged-frames artifact is ever
written, and the lineup files, events.csv and metadata.json are all still
persisted into the match directory. -/
theorem empty_frames_skips_merge (p : Provider) (basePath : String)
    (mrow : MatchRecord) (rest : List MatchRecord) (mid : Int)
    (homeTeam awayTeam : String) (evs : List EventRow)
    (lus : List (String × List String))
    (h1 : p.sb_matches = .ok (mrow :: rest))
    (h2 : mrow.match_id = some mid)
    (h3 : mrow.home_team = some homeTeam)
    (h4 : mrow.away_team = some awayTeam)
    (h5 : p.sb_events mid = .ok evs)
    (h6 : p.sb_frames mid = .ok [])
    (h7 : p.sb_lineups mid = .ok lus) :
    ((download_leverkusen_data p basePath).1 = .ok ()) ∧
    (∀ path c, RunAction.writeFile path (FileContent.framesCsv c)
        ∉ (download_leverkusen_data p basePath).2) ∧
    (∀ tl ∈ lus,
      RunAction.writeFile
          (basePath ++ "/" ++ matchDirName (mrow.match_week.getD 0) homeTeam
              (mrow.home_score.getD 0) (mrow.away_score.getD 0) awayTeam
            ++ "/" ++ sanitize_team_name tl.1 ++ "_lineups.csv")
          (FileContent.lineupCsv tl.2)
        ∈ (download_leverkusen_data p basePath).2) ∧
    (RunAction.writeFile
        (basePath ++ "/" ++ matchDirName (mrow.match_week.getD 0) homeTeam
            (mrow.home_score.getD 0) (mrow.away_score.getD 0) awayTeam
          ++ "/events.csv")
        (FileContent.eventsCsv evs)
      ∈ (download_leverkusen_data p basePath).2) ∧
    (RunAction.writeFile
        (basePath ++ "/" ++ matchDirName (mrow.match_week.getD 0) homeTeam
            (mrow.home_score.getD 0) (mrow.away_score.getD 0) awayTeam
          ++ "/metadata.json")
        (FileContent.metadataJson (match_metadata mid mrow))
      ∈ (download_leverkusen_data p basePath).2) := by
  rw [download_trace_empty_frames p basePath mrow rest mid homeTeam awayTeam evs lus
    h1 h2 h3 h4 h5 h6 h7]
  refine ⟨rfl, ?_, ?_, ?_, ?_⟩
  · intro path c h
    simp at h
  · intro tl htl
    exact List.mem_append_left _ (List.mem_append_left _ (List.mem_append_right _
      (List.mem_map_of_mem _ htl)))
  · exact List.mem_append_right _ (List.mem_cons_self _ _)
  · exact List.mem_append_right _ (List.mem_cons_of_mem _ (List.mem_cons_self _ _))

/-- A provider with one complete match row, one event, an empty frame
table, and two lineups. -/
def emptyFramesProvider : Provider :=
  ⟨.ok [rowFull], fun _ => .ok [⟨123, "e1", "pass"⟩], fun _ => .ok [],
   fun _ => .ok [("Bayer Leverkusen", ["J. Hermansen"]), ("RB Leipzig", ["P. Gulacsi"])]⟩

/-- Closed witness for empty_frames_skips_merge at a concrete provider. -/
theorem empty_frames_skips_merge_witness :
    ((download_leverkusen_data emptyFramesProvider "matches").1 = .ok ()) ∧
    (RunAction.writeFile "matches/GW1_BayerLeverkusen_3-2_RBLeipzig/360_frames.csv"
        (FileContent.framesCsv [])
      ∉ (download_leverkusen_data emptyFramesProvider "matches").2) ∧
    (RunAction.writeFile "matches/GW1_BayerLeverkusen_3-2_RBLeipzig/BayerLeverkusen_lineups.csv"
        (FileContent.lineupCsv ["J. Hermansen"])
      ∈ (download_leverkusen_data emptyFramesProvider "matches").2) ∧
    (RunAction.writeFile "matches/GW1_BayerLeverkusen_3-2_RBLeipzig/events.csv"
        (FileContent.eventsCsv [⟨123, "e1", "pass"⟩])
      ∈ (download_leverkusen_data emptyFramesProvider "matches").2) ∧
    (RunAction.writeFile "matches/GW1_BayerLeverkusen_3-2_RBLeipzig/metadata.json"
        (FileContent.metadataJson (match_metadata 123 rowFull))
      ∈ (download_leverkusen_data emptyFramesProvider "matches").2) := by
  have h := empty_frames_skips_merge emptyFramesProvider "matches" rowFull [] 123
    "Bayer Leverkusen" "RB Leipzig" [⟨123, "e1", "pass"⟩]
    [("Bayer Leverkusen", ["J. Hermansen"]), ("RB Leipzig", ["P. Gulacsi"])]
    rfl rfl rfl rfl rfl rfl rfl
  refine ⟨h.1, ?_, ?_, ?_, ?_⟩
  · exact h.2.1 "matches/GW1_BayerLeverkusen_3-2_RBLeipzig/360_frames.csv" []
  · exact h.2.2.1 ("Bayer Leverkusen", ["J. Hermansen"]) (List.mem_cons_self _ _)
  · exact h.2.2.2.1
  · exact h.2.2.2.2
